import Mathlib

/-!
Verification development for the angular-webstorage module
(`angular-webstorage.js`, v0.14.0; the file appears in this repository as
`src/unnamed/part_000` and is cited below by its line numbers).

The module is a single AngularJS factory holding mutable local variables
(`order`, `prefix`, `ram`, the support flags, the polyfill flags) and a
public object of closures over them.  The embedding turns that mutable
environment into an explicit state record `WSState`; every closure becomes
a Lean function from the state (plus its JS arguments) to the new state
paired with its JS return value.  Broadcasts over the `$rootScope` and
`console.warn` calls are modelled as append-only logs inside the state.
-/

/-- JSON-representable values: the image of `JSON.parse`.  Numbers are
modelled as integers; nothing in the module inspects numeric values, so the
choice of number carrier is irrelevant to every claim. -/
inductive JsonVal where
  | jnull : JsonVal
  | jbool : Bool → JsonVal
  | jnum : Int → JsonVal
  | jstr : String → JsonVal
  | jarr : List JsonVal → JsonVal
  | jobj : List (String × JsonVal) → JsonVal

/-- JavaScript values as far as this module observes them: the
JSON-representable ones, a function value, and an object with a circular
reference (the two kinds of non-serializable values the spec names).
`jcircular` stands in for any object on which `JSON.stringify` throws a
TypeError; circular object graphs themselves cannot be a constructor of an
inductive type, so they are represented by this opaque token. -/
inductive JsVal where
  | json : JsonVal → JsVal
  | jfun : JsVal
  | jcircular : JsVal

/-- The JS value `null` (identical to the parse of the text "null"). -/
def jsNull : JsVal := .json .jnull

/-- Is this JS value the literal `null`?  Models a `value !== null` /
`null !== value` comparison from the source. -/
def JsVal.isNull : JsVal → Bool
  | .json .jnull => true
  | _ => false

/-- A string cell of a native backend (`localStorage` / `sessionStorage`).
The module only ever (a) tests the fetched string for truthiness and
(b) runs `JSON.parse` on it, and the only strings it ever writes are
`JSON.stringify` output (valid JSON text, which parses back to the
serialized value) or the text "undefined" (the DOMString coercion that
`setItem` applies when `JSON.stringify` returned `undefined`, e.g. for a
function value).  Cells are therefore represented by that dichotomy; both
alternatives are non-empty strings, hence truthy. -/
inductive StoredStr where
  | undefinedText : StoredStr
  | jsonText : JsonVal → StoredStr

/-- The result of `JSON.stringify(value)` as the module can observe it:
a JSON text (represented by the value it serializes), the value
`undefined` (top-level function), or a thrown TypeError (circular
structure).  `none` is the thrown case; `some` carries the string that
`setItem` will receive after DOMString coercion. -/
def jsStringifyStored : JsVal → Option StoredStr
  | .json v => some (.jsonText v)
  | .jfun => some .undefinedText
  | .jcircular => none

/-- A JavaScript exception as the module observes it: `croak` reads
`error.title` and `error.message` (part_000 line 1150). -/
structure JsErr where
  title : String
  message : String
deriving DecidableEq

/-- TypeError thrown by `JSON.stringify` on a circular structure. -/
def circularErr : JsErr := { title := "TypeError", message := "Converting circular structure to JSON" }

/-- SyntaxError thrown by `JSON.parse` on the text "undefined". -/
def parseErr : JsErr := { title := "SyntaxError", message := "Unexpected token u in JSON" }

/-- TypeError thrown when a member of a nulled storage object is accessed
(after a polyfill has been removed, `window.localStorage` is `null`). -/
def nullAccessErr : JsErr := { title := "TypeError", message := "Cannot read property of null" }

/-- Exception thrown by a failing native `setItem` (e.g. quota exceeded). -/
def quotaErr : JsErr := { title := "QuotaExceededError", message := "The quota has been exceeded" }

/-- Exception thrown by a failing native backend primitive. -/
def backendErr : JsErr := { title := "Error", message := "backend failure" }

/-- TypeError thrown when `webStorage.memory.isPolyfilled` is invoked:
that member is the boolean constant `false` (part_000 line 382), and
calling a non-function raises. -/
def notAFunctionErr : JsErr := { title := "TypeError", message := "webStorage.memory.isPolyfilled is not a function" }

/-- Insertion-ordered association-list update, the effect of
`store.setItem(k, v)` / `ram[k] = v` on the entry list: an existing key is
overwritten in place, a new key is appended. -/
def setAssoc {α : Type} : List (String × α) → String → α → List (String × α)
  | [], k, v => [(k, v)]
  | (k0, v0) :: rest, k, v =>
    if k0 = k then (k, v) :: rest else (k0, v0) :: setAssoc rest k v

/-- Association-list lookup, the effect of `store.getItem(k)` /
`k in ram ? ram[k] : null`. -/
def getAssoc {α : Type} : List (String × α) → String → Option α
  | [], _ => none
  | (k0, v0) :: rest, k => if k0 = k then some v0 else getAssoc rest k

/-- A native web-storage backend (`localStorage` or `sessionStorage`).
`items` is the entry list in the backend's enumeration order.  The three
flags model environment conditions under which the corresponding native
primitive throws (quota exhaustion, access denial, ...): the spec's error
taxonomy calls these "backend exceptions", and they are part of the
environment, not of the module's state proper. -/
structure NativeStore where
  items : List (String × StoredStr)
  setItemThrows : Bool
  getItemThrows : Bool
  keyThrows : Bool

/-- Native `setItem`: throws when the environment makes it throw, else
updates the cell. -/
def NativeStore.setItem (st : NativeStore) (k : String) (v : StoredStr) : Except JsErr NativeStore :=
  if st.setItemThrows then .error quotaErr
  else .ok { st with items := setAssoc st.items k v }

/-- Native `getItem`: throws when the environment makes it throw, else
returns the cell (or `null`, modelled as `none`). -/
def NativeStore.getItem (st : NativeStore) (k : String) : Except JsErr (Option StoredStr) :=
  if st.getItemThrows then .error backendErr
  else .ok (getAssoc st.items k)

/-- Native `key(n)`: throws when the environment makes it throw, else
returns the name of the nth entry, or `null` when out of range. -/
def NativeStore.keyName (st : NativeStore) (n : Nat) : Except JsErr (Option String) :=
  if st.keyThrows then .error backendErr
  else .ok ((st.items.get? n).map Prod.fst)

/-- The whole mutable environment of the factory closure (part_000 lines
275-319) plus the two storage backends and the observable logs.
`hasLocalStorage` / `hasSessionStorage` are the support flags computed once
at initialization; `windowLocalStorageNulled` records that
`window.localStorage` has been set to `null` by a polyfill removal
(part_000 line 1280), and similarly for session storage.  `prfx` is the
module's `prefix` variable.  `broadcasts` logs every
`$rootScope.$broadcast(name, message)`; `warnings` logs every
`console.warn` message. -/
structure WSState where
  hasLocalStorage : Bool
  hasSessionStorage : Bool
  isLocalStoragePolyfilled : Bool
  isSessionStoragePolyfilled : Bool
  windowLocalStorageNulled : Bool
  windowSessionStorageNulled : Bool
  localStore : NativeStore
  sessionStore : NativeStore
  ram : List (String × JsVal)
  order : List String
  prfx : String
  errorName : String
  broadcasts : List (String × String)
  warnings : List String

/-- The deprecation warning text for `add()` (part_000 line 268). -/
def addDeprecatedWarning : String := "angular-webstorage.js -- `add()` had been deprecated, use `set()` instead"

/-- Model of `console.warn(msg)`: appends to the warning log. -/
def consoleWarn (st : WSState) (msg : String) : WSState :=
  { st with warnings := st.warnings ++ [msg] }

/-- Model of `croak(error)` (part_000 lines 1149-1152) without its
return value: broadcasts the error on the current error channel. -/
def croak (st : WSState) (e : JsErr) : WSState :=
  { st with broadcasts := st.broadcasts ++ [(st.errorName, e.title ++ ": " ++ e.message)] }

/-- Model of `return croak(error)` from a setter: broadcast, return false. -/
def croakB (st : WSState) (e : JsErr) : WSState × Bool := (croak st e, false)

/-- `setInLocal(key, value)` (part_000 lines 731-741): if local storage is
supported, `localStorage.setItem(prefix + key, JSON.stringify(value))`
inside a try/catch that reports and returns false; returns true when the
store call succeeded; returns false when unsupported.  Member access on a
nulled `localStorage`, a throwing `JSON.stringify`, and a throwing
`setItem` are all caught by the same try/catch. -/
def setInLocal (st : WSState) (key : String) (value : JsVal) : WSState × Bool :=
  if st.hasLocalStorage then
    if st.windowLocalStorageNulled then croakB st nullAccessErr
    else
      match jsStringifyStored value with
      | none => croakB st circularErr
      | some s =>
        match st.localStore.setItem (st.prfx ++ key) s with
        | .error e => croakB st e
        | .ok store => ({ st with localStore := store }, true)
  else (st, false)

/-- `setInSession(key, value)` (part_000 lines 755-765), the session
mirror of `setInLocal`. -/
def setInSession (st : WSState) (key : String) (value : JsVal) : WSState × Bool :=
  if st.hasSessionStorage then
    if st.windowSessionStorageNulled then croakB st nullAccessErr
    else
      match jsStringifyStored value with
      | none => croakB st circularErr
      | some s =>
        match st.sessionStore.setItem (st.prfx ++ key) s with
        | .error e => croakB st e
        | .ok store => ({ st with sessionStore := store }, true)
  else (st, false)

/-- `setInMemory(key, value)` (part_000 lines 777-780): `ram[key] = value;
return true`.  No prefix, no serialization, never fails. -/
def setInMemory (st : WSState) (key : String) (value : JsVal) : WSState × Bool :=
  ({ st with ram := setAssoc st.ram key value }, true)

/-- `getFromLocal(key)` (part_000 lines 792-803): when supported, fetches
`prefix + key` and returns `value && JSON.parse(value)` inside a try/catch
that reports and returns null.  An absent cell gives `null` (the `&&`
short-circuits on the fetched `null`); a stored "undefined" text makes
`JSON.parse` throw, which is caught; a stored JSON text parses back to the
value it serializes (both stored-string forms are non-empty, so the
truthiness test on the fetched string always passes). -/
def getFromLocal (st : WSState) (key : String) : WSState × JsVal :=
  if st.hasLocalStorage then
    if st.windowLocalStorageNulled then (croak st nullAccessErr, jsNull)
    else
      match st.localStore.getItem (st.prfx ++ key) with
      | .error e => (croak st e, jsNull)
      | .ok none => (st, jsNull)
      | .ok (some .undefinedText) => (croak st parseErr, jsNull)
      | .ok (some (.jsonText v)) => (st, .json v)
  else (st, jsNull)

/-- `getFromSession(key)` (part_000 lines 815-826), the session mirror of
`getFromLocal`. -/
def getFromSession (st : WSState) (key : String) : WSState × JsVal :=
  if st.hasSessionStorage then
    if st.windowSessionStorageNulled then (croak st nullAccessErr, jsNull)
    else
      match st.sessionStore.getItem (st.prfx ++ key) with
      | .error e => (croak st e, jsNull)
      | .ok none => (st, jsNull)
      | .ok (some .undefinedText) => (croak st parseErr, jsNull)
      | .ok (some (.jsonText v)) => (st, .json v)
  else (st, jsNull)

/-- `getFromMemory(key)` (part_000 lines 837-839):
`key in ram ? ram[key] : null`.  Pure; the state is returned unchanged for
uniformity with the other engines. -/
def getFromMemory (st : WSState) (key : String) : WSState × JsVal :=
  match getAssoc st.ram key with
  | some v => (st, v)
  | none => (st, jsNull)

/-- `hasInLocal(key)` (part_000 lines 848-850): `null !== getFromLocal(key)`. -/
def hasInLocal (st : WSState) (key : String) : WSState × Bool :=
  let r := getFromLocal st key
  (r.1, !r.2.isNull)

/-- `hasInSession(key)` (part_000 lines 859-861): `null !== getFromSession(key)`. -/
def hasInSession (st : WSState) (key : String) : WSState × Bool :=
  let r := getFromSession st key
  (r.1, !r.2.isNull)

/-- `hasInMemory(key)` (part_000 lines 870-872): `null !== getFromMemory(key)`. -/
def hasInMemory (st : WSState) (key : String) : WSState × Bool :=
  let r := getFromMemory st key
  (r.1, !r.2.isNull)

/-- `keyInLocal(num)` (part_000 lines 882-887): when supported,
`return localStorage.key(num)` with NO try/catch — a throwing backend
primitive (or a nulled `localStorage`) propagates the exception to the
caller, hence the `Except` result; when unsupported, returns null. -/
def keyInLocal (st : WSState) (num : Nat) : Except JsErr (WSState × Option String) :=
  if st.hasLocalStorage then
    if st.windowLocalStorageNulled then .error nullAccessErr
    else
      match st.localStore.keyName num with
      | .error e => .error e
      | .ok r => .ok (st, r)
  else .ok (st, none)

/-- `keyInSession(num)` (part_000 lines 897-902), the session mirror of
`keyInLocal`: likewise unguarded. -/
def keyInSession (st : WSState) (num : Nat) : Except JsErr (WSState × Option String) :=
  if st.hasSessionStorage then
    if st.windowSessionStorageNulled then .error nullAccessErr
    else
      match st.sessionStore.keyName num with
      | .error e => .error e
      | .ok r => .ok (st, r)
  else .ok (st, none)

/-- `addToLocal(key, value)` (part_000 lines 680-683):
`console.warn(addDeprecatedWarning); return setInLocal(key, value)`. -/
def addToLocal (st : WSState) (key : String) (value : JsVal) : WSState × Bool :=
  setInLocal (consoleWarn st addDeprecatedWarning) key value

/-- `addToSession(key, value)` (part_000 lines 698-701). -/
def addToSession (st : WSState) (key : String) (value : JsVal) : WSState × Bool :=
  setInSession (consoleWarn st addDeprecatedWarning) key value

/-- `addToMemory(key, value)` (part_000 lines 714-717). -/
def addToMemory (st : WSState) (key : String) (value : JsVal) : WSState × Bool :=
  setInMemory (consoleWarn st addDeprecatedWarning) key value

/-- `isLocalPolyfilled(removePolyfill)` (part_000 lines 1277-1284):
returns the old flag; when called with exactly `true` while the flag is
set, nulls `window.localStorage` and clears the local flag.  The argument
is `Option Bool` because JS callers may omit it (`none` is `undefined`);
the source compares with `===`, so only `some true` triggers removal. -/
def isLocalPolyfilled (st : WSState) (removePolyfill : Option Bool) : WSState × Bool :=
  let oldValue := st.isLocalStoragePolyfilled
  if removePolyfill = some true ∧ st.isLocalStoragePolyfilled = true then
    ({ st with windowLocalStorageNulled := true, isLocalStoragePolyfilled := false }, oldValue)
  else (st, oldValue)

/-- `isSessionPolyfilled(removePolyfill)` (part_000 lines 1295-1302):
returns the old flag; when called with exactly `true` while the session
flag is set, nulls `window.sessionStorage` and then — exactly as the
source does on line 1299 — assigns `isLocalStoragePolyfilled = false`,
leaving `isSessionStoragePolyfilled` untouched. -/
def isSessionPolyfilled (st : WSState) (removePolyfill : Option Bool) : WSState × Bool :=
  let oldValue := st.isSessionStoragePolyfilled
  if removePolyfill = some true ∧ st.isSessionStoragePolyfilled = true then
    ({ st with windowSessionStorageNulled := true, isLocalStoragePolyfilled := false }, oldValue)
  else (st, oldValue)

/-- The `isSupported` member of the sub-object `webStorage[name]` for a
recognized engine name (part_000 lines 335, 354, 373): local and session
expose the support flags captured at initialization, memory is always
supported.  Unrecognized names give `false`; in the source such a name
would make `webStorage[name]` undefined and the member access throw, but
the order setter (part_000 lines 634-645) filters the order to recognized
names, so the generic loops — the only callers — never dispatch on an
unrecognized name.  Theorems about the generic API carry the corresponding
well-formedness hypothesis `orderWF`. -/
def engineIsSupported (st : WSState) (name : String) : Bool :=
  if name = "local" then st.hasLocalStorage
  else if name = "session" then st.hasSessionStorage
  else if name = "memory" then true
  else false

/-- Dispatch of `webStorage[name].set(key, value)` over the three
sub-objects.  The default branch is unreachable under `orderWF` (see
`engineIsSupported`). -/
def engineSet (st : WSState) (name key : String) (value : JsVal) : WSState × Bool :=
  if name = "local" then setInLocal st key value
  else if name = "session" then setInSession st key value
  else if name = "memory" then setInMemory st key value
  else (st, false)

/-- Dispatch of `webStorage[name].get(key)` over the three sub-objects. -/
def engineGet (st : WSState) (name key : String) : WSState × JsVal :=
  if name = "local" then getFromLocal st key
  else if name = "session" then getFromSession st key
  else if name = "memory" then getFromMemory st key
  else (st, jsNull)

/-- All entries of the configured order are recognized engine names; this
is what the regex `^(local|session|memory)$` of the order setter tests. -/
def recognizedEngine (s : String) : Bool :=
  s = "local" || s = "session" || s = "memory"

/-- Well-formedness of the configured order: every entry is recognized.
Holds for the default order and is preserved by the order setter. -/
def orderWF (st : WSState) : Prop :=
  ∀ s ∈ st.order, recognizedEngine s = true

/-- The loop body of `webStorage.set` (part_000 lines 422-436): iterate
the order list; on each supported engine run its `set`, OR the result into
the accumulator, and return at once when `allEngines` is false. -/
def webStorage.setLoop (key : String) (value : JsVal) (allEngines : Bool) :
    WSState → Bool → List String → WSState × Bool
  | st, result, [] => (st, result)
  | st, result, name :: rest =>
    if engineIsSupported st name then
      let r := engineSet st name key value
      let result2 := r.2 || result
      if !allEngines then (r.1, result2)
      else webStorage.setLoop key value allEngines r.1 result2 rest
    else webStorage.setLoop key value allEngines st result rest

/-- `webStorage.set(key, value, allEngines)` (part_000 lines 422-436);
an omitted `allEngines` (`none`) defaults to `false`. -/
def webStorage.set (st : WSState) (key : String) (value : JsVal)
    (allEngines : Option Bool) : WSState × Bool :=
  webStorage.setLoop key value (allEngines.getD false) st false st.order

/-- The loop body of `webStorage.get` (part_000 lines 455-468): iterate
the order list; on each supported engine run its `get` and return its
value as soon as `allEngines` is false or the value is not null. -/
def webStorage.getLoop (key : String) (allEngines : Bool) :
    WSState → List String → WSState × JsVal
  | st, [] => (st, jsNull)
  | st, name :: rest =>
    if engineIsSupported st name then
      let r := engineGet st name key
      if !allEngines || !r.2.isNull then r
      else webStorage.getLoop key allEngines r.1 rest
    else webStorage.getLoop key allEngines st rest

/-- `webStorage.get(key, allEngines)` (part_000 lines 455-468); an
omitted `allEngines` (`none`) defaults to `true`. -/
def webStorage.get (st : WSState) (key : String) (allEngines : Option Bool) : WSState × JsVal :=
  webStorage.getLoop key (allEngines.getD true) st st.order

/-- `webStorage.has(key, allEngines)` (part_000 lines 479-481):
`null !== webStorage.get(key, allEngines)`. -/
def webStorage.has (st : WSState) (key : String) (allEngines : Option Bool) : WSState × Bool :=
  let r := webStorage.get st key allEngines
  (r.1, !r.2.isNull)

/-- `webStorage.add(key, value, allEngines)` (part_000 lines 402-405):
warn about the deprecation, then delegate to `webStorage.set`. -/
def webStorage.add (st : WSState) (key : String) (value : JsVal)
    (allEngines : Option Bool) : WSState × Bool :=
  webStorage.set (consoleWarn st addDeprecatedWarning) key value allEngines

/-- `webStorage.order(newOrder)` (part_000 lines 634-645): remember a copy
of the current order (`angular.copy`; Lean lists are immutable, so the
copy is the list itself), and when an argument was passed replace the
order with the entries that match `^(local|session|memory)$`, in their
given relative order; always return the remembered previous order. -/
def webStorage.order (st : WSState) (newOrder : Option (List String)) : WSState × List String :=
  let result := st.order
  match newOrder with
  | none => (st, result)
  | some xs => ({ st with order := xs.filter recognizedEngine }, result)

/-- A member of a sub-object that a caller may try to invoke: either a
function of the appropriate shape, or a plain (non-callable) boolean. -/
inductive JsMemberVal where
  | boolVal : Bool → JsMemberVal
  | funcVal : (WSState → Option Bool → WSState × Bool) → JsMemberVal

/-- The `isPolyfilled` member of `webStorage.memory` (part_000 line 382):
the boolean constant `false`, not a function. -/
def webStorage.memory.isPolyfilled : JsMemberVal := .boolVal false

/-- The `isPolyfilled` member of `webStorage.local` (part_000 line 344):
the function `isLocalPolyfilled`. -/
def webStorage.local.isPolyfilled : JsMemberVal := .funcVal isLocalPolyfilled

/-- The `isPolyfilled` member of `webStorage.session` (part_000 line 363):
the function `isSessionPolyfilled`. -/
def webStorage.session.isPolyfilled : JsMemberVal := .funcVal isSessionPolyfilled

/-- JS call semantics for such a member: invoking a function applies it;
invoking a non-function value throws a TypeError. -/
def callMember (m : JsMemberVal) (st : WSState) (arg : Option Bool) :
    Except JsErr (WSState × Bool) :=
  match m with
  | .boolVal _ => .error notAFunctionErr
  | .funcVal f => .ok (f st arg)

/-- A healthy native backend with no entries and no throwing primitives. -/
def emptyStore : NativeStore :=
  { items := [], setItemThrows := false, getItemThrows := false, keyThrows := false }

/-- The module state right after initialization in a client that supports
both native engines: default order, empty prefix, default error channel,
nothing stored, nothing polyfilled, no notifications yet. -/
def initState : WSState :=
  { hasLocalStorage := true
    hasSessionStorage := true
    isLocalStoragePolyfilled := false
    isSessionStoragePolyfilled := false
    windowLocalStorageNulled := false
    windowSessionStorageNulled := false
    localStore := emptyStore
    sessionStore := emptyStore
    ram := []
    order := ["local", "session", "memory"]
    prfx := ""
    errorName := "webStorage.notification.error"
    broadcasts := []
    warnings := [] }

/-- `initState` with a local backend whose `key` primitive throws. -/
def keyThrowingState : WSState :=
  { initState with localStore := { emptyStore with keyThrows := true } }

/-- `initState` with both engines marked as cookie-polyfilled. -/
def bothPolyfilledState : WSState :=
  { initState with isLocalStoragePolyfilled := true, isSessionStoragePolyfilled := true }

/-- Lookup after update finds the updated cell. -/
theorem getAssoc_setAssoc {α : Type} (l : List (String × α)) (k : String) (v : α) :
    getAssoc (setAssoc l k v) k = some v := by
  induction l with
  | nil => simp [setAssoc, getAssoc]
  | cons hd tl ih =>
    obtain ⟨k0, v0⟩ := hd
    by_cases h : k0 = k
    · simp [setAssoc, getAssoc, h]
    · simp [setAssoc, getAssoc, h, ih]

/-- `isNull` decides equality with the JS value `null`. -/
theorem JsVal.isNull_iff (v : JsVal) : v.isNull = true ↔ v = jsNull := by
  cases v with
  | json j => cases j <;> simp [JsVal.isNull, jsNull]
  | jfun => simp [JsVal.isNull, jsNull]
  | jcircular => simp [JsVal.isNull, jsNull]

/-- Claim C1: on each of the three engines, in a state where the engine is
supported and its backend primitives do not throw (and its storage object
has not been nulled by a polyfill removal), `set(k, v)` with a
JSON-representable value `v` returns `true`, and an immediately following
`get(k)` on the same engine (hence with the same prefix) returns a value
deep-equal to `v` — here literally equal, since JSON round-tripping of a
JSON-representable value is the identity. -/
theorem set_then_get_roundtrip (st : WSState) (k : String) (jv : JsonVal)
    (hl : st.hasLocalStorage = true) (hln : st.windowLocalStorageNulled = false)
    (hlset : st.localStore.setItemThrows = false) (hlget : st.localStore.getItemThrows = false)
    (hs : st.hasSessionStorage = true) (hsn : st.windowSessionStorageNulled = false)
    (hsset : st.sessionStore.setItemThrows = false) (hsget : st.sessionStore.getItemThrows = false) :
    ((setInLocal st k (.json jv)).2 = true
      ∧ (getFromLocal (setInLocal st k (.json jv)).1 k).2 = .json jv)
    ∧ ((setInSession st k (.json jv)).2 = true
      ∧ (getFromSession (setInSession st k (.json jv)).1 k).2 = .json jv)
    ∧ ((setInMemory st k (.json jv)).2 = true
      ∧ (getFromMemory (setInMemory st k (.json jv)).1 k).2 = .json jv) := by
  refine ⟨⟨?_, ?_⟩, ⟨?_, ?_⟩, ?_, ?_⟩
  · simp [setInLocal, hl, hln, jsStringifyStored, NativeStore.setItem, hlset]
  · simp [setInLocal, hl, hln, jsStringifyStored, NativeStore.setItem, hlset,
      getFromLocal, NativeStore.getItem, hlget, getAssoc_setAssoc]
  · simp [setInSession, hs, hsn, jsStringifyStored, NativeStore.setItem, hsset]
  · simp [setInSession, hs, hsn, jsStringifyStored, NativeStore.setItem, hsset,
      getFromSession, NativeStore.getItem, hsget, getAssoc_setAssoc]
  · simp [setInMemory]
  · simp [setInMemory, getFromMemory, getAssoc_setAssoc]

/-- Witness for C1 at a concrete input: the fresh post-initialization
state, key "k", value "v". -/
theorem set_then_get_roundtrip_witness :
    ((setInLocal initState "k" (.json (.jstr "v"))).2 = true
      ∧ (getFromLocal (setInLocal initState "k" (.json (.jstr "v"))).1 "k").2 = .json (.jstr "v"))
    ∧ ((setInSession initState "k" (.json (.jstr "v"))).2 = true
      ∧ (getFromSession (setInSession initState "k" (.json (.jstr "v"))).1 "k").2 = .json (.jstr "v"))
    ∧ ((setInMemory initState "k" (.json (.jstr "v"))).2 = true
      ∧ (getFromMemory (setInMemory initState "k" (.json (.jstr "v"))).1 "k").2 = .json (.jstr "v")) :=
  set_then_get_roundtrip initState "k" (.jstr "v") rfl rfl rfl rfl rfl rfl rfl rfl

/-- Counterexample to claim C3 as stated: in the fresh post-initialization
state — local storage supported, nothing throwing — setting a function
value does NOT fail at set time: `JSON.stringify` yields `undefined`,
`setItem` stores the coerced text "undefined", and `setInLocal` returns
`true`, not `false`. -/
theorem setInLocal_function_value_returns_true :
    initState.hasLocalStorage = true
    ∧ (setInLocal initState "f" JsVal.jfun).2 = true := ⟨rfl, rfl⟩

/-- Claim C3 as amended: for the native-backed engines (supported, with
non-throwing backend primitives), a value whose serialization throws — an
object with a circular reference — fails at set time: `set` returns
`false` and the backend is unchanged.  A function value does not fail at
set time: `set` returns `true` and stores the unusable text "undefined",
and a subsequent `get` of the key reports the parse failure and returns
`null`. -/
theorem set_nonserializable_behavior (st : WSState) (k : String)
    (hl : st.hasLocalStorage = true) (hln : st.windowLocalStorageNulled = false)
    (hlset : st.localStore.setItemThrows = false) (hlget : st.localStore.getItemThrows = false)
    (hs : st.hasSessionStorage = true) (hsn : st.windowSessionStorageNulled = false)
    (hsset : st.sessionStore.setItemThrows = false) (hsget : st.sessionStore.getItemThrows = false) :
    ((setInLocal st k JsVal.jcircular).2 = false
      ∧ (setInLocal st k JsVal.jcircular).1.localStore = st.localStore)
    ∧ ((setInLocal st k JsVal.jfun).2 = true
      ∧ (getFromLocal (setInLocal st k JsVal.jfun).1 k).2 = jsNull)
    ∧ ((setInSession st k JsVal.jcircular).2 = false
      ∧ (setInSession st k JsVal.jcircular).1.sessionStore = st.sessionStore)
    ∧ ((setInSession st k JsVal.jfun).2 = true
      ∧ (getFromSession (setInSession st k JsVal.jfun).1 k).2 = jsNull) := by
  refine ⟨⟨?_, ?_⟩, ⟨?_, ?_⟩, ⟨?_, ?_⟩, ?_, ?_⟩
  · simp [setInLocal, hl, hln, jsStringifyStored, croakB, croak]
  · simp [setInLocal, hl, hln, jsStringifyStored, croakB, croak]
  · simp [setInLocal, hl, hln, jsStringifyStored, NativeStore.setItem, hlset]
  · simp [setInLocal, hl, hln, jsStringifyStored, NativeStore.setItem, hlset,
      getFromLocal, NativeStore.getItem, hlget, getAssoc_setAssoc, croak]
  · simp [setInSession, hs, hsn, jsStringifyStored, croakB, croak]
  · simp [setInSession, hs, hsn, jsStringifyStored, croakB, croak]
  · simp [setInSession, hs, hsn, jsStringifyStored, NativeStore.setItem, hsset]
  · simp [setInSession, hs, hsn, jsStringifyStored, NativeStore.setItem, hsset,
      getFromSession, NativeStore.getItem, hsget, getAssoc_setAssoc, croak]

/-- Witness for the amended C3 at a concrete input: the fresh
post-initialization state and key "f". -/
theorem set_nonserializable_behavior_witness :
    ((setInLocal initState "f" JsVal.jcircular).2 = false
      ∧ (setInLocal initState "f" JsVal.jcircular).1.localStore = initState.localStore)
    ∧ ((setInLocal initState "f" JsVal.jfun).2 = true
      ∧ (getFromLocal (setInLocal initState "f" JsVal.jfun).1 "f").2 = jsNull)
    ∧ ((setInSession initState "f" JsVal.jcircular).2 = false
      ∧ (setInSession initState "f" JsVal.jcircular).1.sessionStore = initState.sessionStore)
    ∧ ((setInSession initState "f" JsVal.jfun).2 = true
      ∧ (getFromSession (setInSession initState "f" JsVal.jfun).1 "f").2 = jsNull) :=
  set_nonserializable_behavior initState "f" rfl rfl rfl rfl rfl rfl rfl rfl

/-- Claim C2 evaluated at the failing input (code bug, part_000 line 1299):
start from a state where both engines are cookie-polyfilled and call
`session.isPolyfilled(true)`.  The call returns `true` (the old value, as
documented), but the source clears `isLocalStoragePolyfilled` instead of
`isSessionStoragePolyfilled`: afterwards the session flag is still set, a
subsequent `session.isPolyfilled()` still returns `true` (the claim says
`false`), and the local engine's polyfill state has been wiped (the claim
says it is unaffected). -/
theorem isSessionPolyfilled_remove_clears_wrong_flag :
    ((isSessionPolyfilled bothPolyfilledState (some true)).2 = true)
    ∧ ((isSessionPolyfilled bothPolyfilledState (some true)).1.isSessionStoragePolyfilled = true)
    ∧ ((isSessionPolyfilled bothPolyfilledState (some true)).1.isLocalStoragePolyfilled = false)
    ∧ ((isSessionPolyfilled (isSessionPolyfilled bothPolyfilledState (some true)).1 none).2 = true) := by
  refine ⟨?_, ?_, ?_, ?_⟩ <;> rfl

/-- Counterexample to claim C4 as stated: in a state where local storage
is supported but the backend's key-by-index primitive throws, the public
`keyInLocal` call does not return null — the exception propagates to the
caller (the source, part_000 lines 882-887, wraps no try/catch around
`localStorage.key(num)`). -/
theorem keyInLocal_propagates_backend_exception :
    keyInLocal keyThrowingState 0 = Except.error backendErr := rfl

/-- Claim C4 as amended: the write/read/remove/clear operations convert
every backend exception into their failure value after notifying (in this
embedding their results are total, exception-free pairs), but the
key-by-index operations invoke the backend primitive unguarded: when the
engine is supported and the primitive throws, `keyInLocal`/`keyInSession`
propagate the exception instead of returning null; when the engine is
unsupported they return null; and when the primitive does not throw they
return the backend's nth key name (null when out of range). -/
theorem keyInLocal_keyInSession_behavior (st : WSState) (n : Nat) :
    (st.hasLocalStorage = true → st.windowLocalStorageNulled = false →
      st.localStore.keyThrows = true → keyInLocal st n = Except.error backendErr)
    ∧ (st.hasLocalStorage = false → keyInLocal st n = Except.ok (st, none))
    ∧ (st.hasLocalStorage = true → st.windowLocalStorageNulled = false →
      st.localStore.keyThrows = false →
      keyInLocal st n = Except.ok (st, (st.localStore.items.get? n).map Prod.fst))
    ∧ (st.hasSessionStorage = true → st.windowSessionStorageNulled = false →
      st.sessionStore.keyThrows = true → keyInSession st n = Except.error backendErr)
    ∧ (st.hasSessionStorage = false → keyInSession st n = Except.ok (st, none))
    ∧ (st.hasSessionStorage = true → st.windowSessionStorageNulled = false →
      st.sessionStore.keyThrows = false →
      keyInSession st n = Except.ok (st, (st.sessionStore.items.get? n).map Prod.fst)) := by
  refine ⟨?_, ?_, ?_, ?_, ?_, ?_⟩ <;> intro h1 <;>
    first
      | (intro h2 h3; simp [keyInLocal, keyInSession, NativeStore.keyName, h1, h2, h3])
      | simp [keyInLocal, keyInSession, h1]

/-- Witness for the amended C4 at concrete inputs: in `initState` the
session engine's key primitive does not throw, so `keyInSession 0` returns
the (absent) nth key; and in `keyThrowingState` the throwing local
primitive propagates. -/
theorem keyInLocal_keyInSession_behavior_witness :
    keyInSession initState 0 = Except.ok (initState, none)
    ∧ keyInLocal keyThrowingState 1 = Except.error backendErr :=
  ⟨(keyInLocal_keyInSession_behavior initState 0).2.2.2.2.2 rfl rfl rfl,
    (keyInLocal_keyInSession_behavior keyThrowingState 1).1 rfl rfl rfl⟩

/-- Claim C8 evaluated at the failing input (code bug, part_000 line 382):
`webStorage.memory.isPolyfilled` is the boolean constant `false`, not a
function, so invoking it — with any remove flag, in any state — throws a
TypeError instead of returning `false`, while the module's own API
documentation (part_000 line 77) describes it as a callable that always
returns `false`. -/
theorem memory_isPolyfilled_call_throws (st : WSState) (removeFlag : Option Bool) :
    callMember webStorage.memory.isPolyfilled st removeFlag = Except.error notAFunctionErr := rfl

/-- Claim C7: the order setter replaces the configured order with exactly
the recognized entries of the input sequence in their relative order,
changes nothing else, rejects nothing, and returns the previous order.
In particular, setting an order with one unrecognized name between two
recognized ones and reading the order back yields the two recognized
names in their original relative order. -/
theorem order_setter_filters (st : WSState) (s : List String) :
    (webStorage.order st (some s)).1 = { st with order := s.filter recognizedEngine }
    ∧ (webStorage.order st (some s)).2 = st.order
    ∧ (webStorage.order st (some ["memory", "bogus", "session"])).1.order
        = ["memory", "session"]
    ∧ (webStorage.order (webStorage.order st (some ["memory", "bogus", "session"])).1 none).2
        = ["memory", "session"] := by
  refine ⟨rfl, rfl, ?_, ?_⟩ <;> rfl

/-- The first supported engine name of a list, in order: what the generic
loops act on when the all-engines flag is false. -/
def firstSupported (st : WSState) : List String → Option String
  | [] => none
  | name :: rest => if engineIsSupported st name then some name else firstSupported st rest

/-- `setInLocal` touches only the local backend and the broadcast log. -/
theorem setInLocal_only_local (st : WSState) (k : String) (v : JsVal) :
    (setInLocal st k v).1.sessionStore = st.sessionStore
    ∧ (setInLocal st k v).1.ram = st.ram := by
  refine ⟨?_, ?_⟩ <;> (unfold setInLocal croakB croak; (repeat' split) <;> rfl)

/-- `setInSession` touches only the session backend and the broadcast log. -/
theorem setInSession_only_session (st : WSState) (k : String) (v : JsVal) :
    (setInSession st k v).1.localStore = st.localStore
    ∧ (setInSession st k v).1.ram = st.ram := by
  refine ⟨?_, ?_⟩ <;> (unfold setInSession croakB croak; (repeat' split) <;> rfl)

/-- `setInMemory` touches only the in-memory map. -/
theorem setInMemory_only_memory (st : WSState) (k : String) (v : JsVal) :
    (setInMemory st k v).1.localStore = st.localStore
    ∧ (setInMemory st k v).1.sessionStore = st.sessionStore := ⟨rfl, rfl⟩

/-- Engine dispatch frame: `engineSet` on one engine leaves the stored
contents of each of the other two engines unchanged. -/
theorem engineSet_frame (st : WSState) (name k : String) (v : JsVal) :
    (name ≠ "local" → (engineSet st name k v).1.localStore = st.localStore)
    ∧ (name ≠ "session" → (engineSet st name k v).1.sessionStore = st.sessionStore)
    ∧ (name ≠ "memory" → (engineSet st name k v).1.ram = st.ram) := by
  unfold engineSet
  refine ⟨?_, ?_, ?_⟩ <;> intro h <;> (repeat' split) <;>
    simp_all [setInLocal_only_local, setInSession_only_session, setInMemory_only_memory]

/-- With the all-engines flag false, the set loop acts on the first
supported engine exactly, or returns `(st, false)` untouched when no
engine in the list is supported. -/
theorem setLoop_first_supported (key : String) (value : JsVal) :
    ∀ (names : List String) (st : WSState),
    (firstSupported st names = none →
      webStorage.setLoop key value false st false names = (st, false))
    ∧ (∀ name, firstSupported st names = some name →
      webStorage.setLoop key value false st false names = engineSet st name key value) := by
  intro names
  induction names with
  | nil => intro st; exact ⟨fun _ => rfl, fun name h => by simp [firstSupported] at h⟩
  | cons hd tl ih =>
    intro st
    by_cases hsup : engineIsSupported st hd = true
    · refine ⟨fun h => ?_, fun name h => ?_⟩
      · simp [firstSupported, hsup] at h
      · simp only [firstSupported, hsup, if_true, Option.some.injEq] at h
        subst h
        simp [webStorage.setLoop, hsup]
    · refine ⟨fun h => ?_, fun name h => ?_⟩
      · simp only [firstSupported, hsup, if_false] at h
        simpa [webStorage.setLoop, hsup] using (ih st).1 h
      · simp only [firstSupported, hsup, if_false] at h
        simpa [webStorage.setLoop, hsup] using (ih st).2 name h

/-- Claim C6: for a well-formed configured order, generic
`set(k, v, allEngines := false)` acts on exactly the first supported
engine in the order — the whole call equals that engine's `set`, so its
boolean result (even `false`) is returned immediately — and the stored
contents of every other engine are unchanged; when no configured engine
is supported it returns `false` and leaves the state untouched. -/
theorem generic_set_single_engine (st : WSState) (k : String) (v : JsVal)
    (hwf : orderWF st) :
    (firstSupported st st.order = none →
      webStorage.set st k v (some false) = (st, false))
    ∧ (∀ name, firstSupported st st.order = some name →
      (webStorage.set st k v (some false) = engineSet st name k v
        ∧ (name ≠ "local" →
            (webStorage.set st k v (some false)).1.localStore = st.localStore)
        ∧ (name ≠ "session" →
            (webStorage.set st k v (some false)).1.sessionStore = st.sessionStore)
        ∧ (name ≠ "memory" →
            (webStorage.set st k v (some false)).1.ram = st.ram))) := by
  have hloop := setLoop_first_supported k v st.order st
  refine ⟨fun h => hloop.1 h, fun name h => ?_⟩
  have heq : webStorage.set st k v (some false) = engineSet st name k v := hloop.2 name h
  refine ⟨heq, ?_, ?_, ?_⟩ <;> intro hne <;> rw [heq]
  · exact (engineSet_frame st name k v).1 hne
  · exact (engineSet_frame st name k v).2.1 hne
  · exact (engineSet_frame st name k v).2.2 hne

/-- Witness for C6 at a concrete input: in the fresh post-initialization
state the first supported engine is "local", and generic single-engine set
equals `setInLocal` while leaving session storage and the in-memory map
untouched. -/
theorem generic_set_single_engine_witness :
    webStorage.set initState "k" (JsVal.json (.jnum 1)) (some false)
      = engineSet initState "local" "k" (JsVal.json (.jnum 1))
    ∧ (webStorage.set initState "k" (JsVal.json (.jnum 1)) (some false)).1.sessionStore
        = initState.sessionStore
    ∧ (webStorage.set initState "k" (JsVal.json (.jnum 1)) (some false)).1.ram
        = initState.ram := by
  have h := (generic_set_single_engine initState "k" (JsVal.json (.jnum 1))
    (by intro s hs; fin_cases hs <;> rfl)).2 "local" rfl
  exact ⟨h.1, h.2.2.1 (by decide), h.2.2.2 (by decide)⟩

/-- The value returned by `webStorage[name].get(key)`, disregarding the
state (whose only possible change is an appended error broadcast). -/
def engineGetVal (st : WSState) (name key : String) : JsVal :=
  (engineGet st name key).2

/-- The first non-null engine result over a name list: consult each
supported engine in order and return the first value that is not null,
or null when the list is exhausted.  This is the traversal shape the
spec calls first-non-null-wins. -/
def firstHit (st : WSState) (key : String) : List String → JsVal
  | [] => jsNull
  | name :: rest =>
    if engineIsSupported st name then
      if (engineGetVal st name key).isNull then firstHit st key rest
      else engineGetVal st name key
    else firstHit st key rest

/-- The value fetched from local storage depends only on the support flag,
the nulled flag, the backend, and the prefix. -/
theorem getFromLocal_val_congr (s t : WSState) (key : String)
    (h1 : s.hasLocalStorage = t.hasLocalStorage)
    (h2 : s.windowLocalStorageNulled = t.windowLocalStorageNulled)
    (h3 : s.localStore = t.localStore) (h4 : s.prfx = t.prfx) :
    (getFromLocal s key).2 = (getFromLocal t key).2 := by
  unfold getFromLocal
  rw [h1, h2, h3, h4]
  (repeat' split) <;> rfl

/-- The value fetched from session storage depends only on the support
flag, the nulled flag, the backend, and the prefix. -/
theorem getFromSession_val_congr (s t : WSState) (key : String)
    (h1 : s.hasSessionStorage = t.hasSessionStorage)
    (h2 : s.windowSessionStorageNulled = t.windowSessionStorageNulled)
    (h3 : s.sessionStore = t.sessionStore) (h4 : s.prfx = t.prfx) :
    (getFromSession s key).2 = (getFromSession t key).2 := by
  unfold getFromSession
  rw [h1, h2, h3, h4]
  (repeat' split) <;> rfl

/-- The value fetched from the in-memory store depends only on `ram`. -/
theorem getFromMemory_val_congr (s t : WSState) (key : String)
    (h : s.ram = t.ram) :
    (getFromMemory s key).2 = (getFromMemory t key).2 := by
  unfold getFromMemory
  rw [h]
  (repeat' split) <;> rfl

/-- The relation "these two states drive every engine identically":
equality of all components an engine read consults. -/
def sameEngines (s t : WSState) : Prop :=
  s.hasLocalStorage = t.hasLocalStorage
  ∧ s.hasSessionStorage = t.hasSessionStorage
  ∧ s.windowLocalStorageNulled = t.windowLocalStorageNulled
  ∧ s.windowSessionStorageNulled = t.windowSessionStorageNulled
  ∧ s.localStore = t.localStore
  ∧ s.sessionStore = t.sessionStore
  ∧ s.ram = t.ram
  ∧ s.prfx = t.prfx

/-- `sameEngines` states agree on which engines are supported. -/
theorem engineIsSupported_congr (s t : WSState) (name : String)
    (h : sameEngines s t) : engineIsSupported s name = engineIsSupported t name := by
  obtain ⟨h1, h2, -⟩ := h
  unfold engineIsSupported
  rw [h1, h2]

/-- `sameEngines` states yield the same value on every engine read. -/
theorem engineGetVal_congr (s t : WSState) (name key : String)
    (h : sameEngines s t) : engineGetVal s name key = engineGetVal t name key := by
  obtain ⟨h1, h2, h3, h4, h5, h6, h7, h8⟩ := h
  unfold engineGetVal engineGet
  (repeat' split) <;>
    first
      | exact getFromLocal_val_congr s t key h1 h3 h5 h8
      | exact getFromSession_val_congr s t key h2 h4 h6 h8
      | exact getFromMemory_val_congr s t key h7
      | rfl

/-- An engine read can only append to the broadcast log: the output state
still drives every engine exactly as the input state does. -/
theorem engineGet_sameEngines (st : WSState) (name key : String) :
    sameEngines (engineGet st name key).1 st := by
  unfold sameEngines engineGet getFromLocal getFromSession getFromMemory croak
  (repeat' split) <;> exact ⟨rfl, rfl, rfl, rfl, rfl, rfl, rfl, rfl⟩

/-- `sameEngines` is transitive. -/
theorem sameEngines_trans (s t u : WSState) (h1 : sameEngines s t)
    (h2 : sameEngines t u) : sameEngines s u := by
  obtain ⟨a1, a2, a3, a4, a5, a6, a7, a8⟩ := h1
  obtain ⟨b1, b2, b3, b4, b5, b6, b7, b8⟩ := h2
  exact ⟨a1.trans b1, a2.trans b2, a3.trans b3, a4.trans b4,
    a5.trans b5, a6.trans b6, a7.trans b7, a8.trans b8⟩

/-- The all-engines get loop computes the first non-null engine result,
read off the (engine-equivalent) reference state. -/
theorem getLoop_val (key : String) (names : List String) :
    ∀ (s t : WSState), sameEngines s t →
    (webStorage.getLoop key true s names).2 = firstHit t key names := by
  induction names with
  | nil => intro s t _; rfl
  | cons hd tl ih =>
    intro s t h
    have hsup := engineIsSupported_congr s t hd h
    have hval : (engineGet s hd key).2 = engineGetVal t hd key :=
      engineGetVal_congr s t hd key h
    cases hs : engineIsSupported t hd with
    | false =>
      have hs2 : engineIsSupported s hd = false := hsup.trans hs
      simp only [webStorage.getLoop, firstHit, hs, hs2, Bool.false_eq_true, if_false]
      exact ih s t h
    | true =>
      have hs2 : engineIsSupported s hd = true := hsup.trans hs
      cases hnull : (engineGetVal t hd key).isNull with
      | true =>
        have hnull2 : (engineGet s hd key).2.isNull = true := by rw [hval, hnull]
        simp only [webStorage.getLoop, firstHit, hs, hs2, if_true, Bool.not_true,
          Bool.false_or, hnull, hnull2, Bool.not_eq_true, if_false]
        exact ih (engineGet s hd key).1 t
          (sameEngines_trans _ _ _ (engineGet_sameEngines s hd key) h)
      | false =>
        have hnull2 : (engineGet s hd key).2.isNull = false := by rw [hval, hnull]
        simp only [webStorage.getLoop, firstHit, hs, hs2, if_true, Bool.not_true,
          Bool.false_or, hnull, hnull2, Bool.not_false, Bool.false_eq_true, if_false]
        exact hval

/-- The first-non-null traversal yields null exactly when every consulted
engine is unsupported or yields null. -/
theorem firstHit_eq_null_iff (st : WSState) (key : String) (names : List String) :
    firstHit st key names = jsNull ↔
      ∀ name ∈ names,
        engineIsSupported st name = false ∨ engineGetVal st name key = jsNull := by
  induction names with
  | nil => simp [firstHit]
  | cons hd tl ih =>
    cases hs : engineIsSupported st hd with
    | false =>
      simp only [firstHit, hs, Bool.false_eq_true, if_false, List.mem_cons]
      constructor
      · intro h name hmem
        rcases hmem with rfl | hmem
        · exact Or.inl hs
        · exact (ih.1 h) name hmem
      · intro h
        exact ih.2 fun name hmem => h name (Or.inr hmem)
    | true =>
      cases hnull : (engineGetVal st hd key).isNull with
      | true =>
        have hv : engineGetVal st hd key = jsNull := (JsVal.isNull_iff _).1 hnull
        simp only [firstHit, hs, if_true, hnull, List.mem_cons]
        constructor
        · intro h name hmem
          rcases hmem with rfl | hmem
          · exact Or.inr hv
          · exact (ih.1 h) name hmem
        · intro h
          exact ih.2 fun name hmem => h name (Or.inr hmem)
      | false =>
        have hv : engineGetVal st hd key ≠ jsNull :=
          fun hc => by rw [(JsVal.isNull_iff _).2 hc] at hnull; cases hnull
        simp only [firstHit, hs, if_true, hnull, Bool.false_eq_true, if_false,
          List.mem_cons]
        constructor
        · intro h; exact absurd h hv
        · intro h
          rcases h hd (Or.inl rfl) with h1 | h1
          · rw [hs] at h1; cases h1
          · exact absurd h1 hv

/-- Every state drives its own engines as itself. -/
theorem sameEngines_refl (st : WSState) : sameEngines st st :=
  ⟨rfl, rfl, rfl, rfl, rfl, rfl, rfl, rfl⟩

/-- Claim C5: for a well-formed configured order, generic `get(k)` with
the default all-engines flag consults the engines in the configured order,
skipping unsupported ones, and returns the first non-null result
(`firstHit`); it returns null if and only if every configured engine is
unsupported or yields null for `k`. -/
theorem generic_get_first_non_null (st : WSState) (k : String) (hwf : orderWF st) :
    (webStorage.get st k none).2 = firstHit st k st.order
    ∧ ((webStorage.get st k none).2 = jsNull ↔
        ∀ name ∈ st.order,
          engineIsSupported st name = false ∨ engineGetVal st name k = jsNull) := by
  have h : (webStorage.get st k none).2 = firstHit st k st.order :=
    getLoop_val k st.order st st (sameEngines_refl st)
  exact ⟨h, h ▸ firstHit_eq_null_iff st k st.order⟩

/-- Witness for C5 at a concrete input: the fresh post-initialization
state, where no engine holds the key, so the generic get returns null and
the characterization applies. -/
theorem generic_get_first_non_null_witness :
    (webStorage.get initState "k" none).2 = firstHit initState "k" initState.order :=
  (generic_get_first_non_null initState "k" (by intro s hs; fin_cases hs <;> rfl)).1

/-- The negated null test used by every `has`, as a proposition. -/
theorem bang_isNull_iff (v : JsVal) : (!v.isNull) = true ↔ v ≠ jsNull := by
  rw [ne_eq, ← JsVal.isNull_iff]
  cases v.isNull <;> simp

/-- Claim C9: generic `has(k, allEngines)` is true exactly when generic
`get(k, allEngines)` is non-null, and each per-engine `has(k)` is true
exactly when that engine's `get(k)` is non-null; consequently a key whose
stored value is the literal null is reported as absent (shown for the
in-memory engine unconditionally and for a supported, non-throwing local
engine). -/
theorem has_iff_get_not_null (st : WSState) (k : String) (allEngines : Option Bool) :
    ((webStorage.has st k allEngines).2 = true ↔ (webStorage.get st k allEngines).2 ≠ jsNull)
    ∧ ((hasInLocal st k).2 = true ↔ (getFromLocal st k).2 ≠ jsNull)
    ∧ ((hasInSession st k).2 = true ↔ (getFromSession st k).2 ≠ jsNull)
    ∧ ((hasInMemory st k).2 = true ↔ (getFromMemory st k).2 ≠ jsNull)
    ∧ ((hasInMemory (setInMemory st k jsNull).1 k).2 = false)
    ∧ (st.hasLocalStorage = true → st.windowLocalStorageNulled = false →
        st.localStore.setItemThrows = false → st.localStore.getItemThrows = false →
        (hasInLocal (setInLocal st k jsNull).1 k).2 = false) := by
  refine ⟨bang_isNull_iff _, bang_isNull_iff _, bang_isNull_iff _, bang_isNull_iff _,
    ?_, ?_⟩
  · simp [hasInMemory, setInMemory, getFromMemory, getAssoc_setAssoc, jsNull, JsVal.isNull]
  · intro hl hln hlset hlget
    simp [hasInLocal, setInLocal, hl, hln, jsStringifyStored, NativeStore.setItem, hlset,
      getFromLocal, NativeStore.getItem, hlget, getAssoc_setAssoc, jsNull, JsVal.isNull]

/-- Witness for C9 at a concrete input: in the fresh post-initialization
state, storing the literal null under a key makes both the in-memory and
the local engine report the key as absent. -/
theorem has_iff_get_not_null_witness :
    ((hasInMemory (setInMemory initState "n" jsNull).1 "n").2 = false)
    ∧ ((hasInLocal (setInLocal initState "n" jsNull).1 "n").2 = false) :=
  ⟨(has_iff_get_not_null initState "n" none).2.2.2.2.1,
    (has_iff_get_not_null initState "n" none).2.2.2.2.2 rfl rfl rfl rfl⟩

/-- `setInLocal` neither reads nor writes the warning log: it threads any
log through unchanged. -/
theorem setInLocal_warn (st : WSState) (w : List String) (k : String) (v : JsVal) :
    setInLocal { st with warnings := w } k v
      = ({ (setInLocal st k v).1 with warnings := w }, (setInLocal st k v).2) := by
  unfold setInLocal croakB croak
  dsimp only
  (repeat' split) <;> rfl

/-- `setInSession` neither reads nor writes the warning log. -/
theorem setInSession_warn (st : WSState) (w : List String) (k : String) (v : JsVal) :
    setInSession { st with warnings := w } k v
      = ({ (setInSession st k v).1 with warnings := w }, (setInSession st k v).2) := by
  unfold setInSession croakB croak
  dsimp only
  (repeat' split) <;> rfl

/-- `setInMemory` neither reads nor writes the warning log. -/
theorem setInMemory_warn (st : WSState) (w : List String) (k : String) (v : JsVal) :
    setInMemory { st with warnings := w } k v
      = ({ (setInMemory st k v).1 with warnings := w }, (setInMemory st k v).2) := rfl

/-- Engine dispatch neither reads nor writes the warning log. -/
theorem engineSet_warn (st : WSState) (w : List String) (name k : String) (v : JsVal) :
    engineSet { st with warnings := w } name k v
      = ({ (engineSet st name k v).1 with warnings := w }, (engineSet st name k v).2) := by
  unfold engineSet
  (repeat' split) <;>
    first
      | exact setInLocal_warn st w k v
      | exact setInSession_warn st w k v
      | exact setInMemory_warn st w k v
      | rfl

/-- The generic set loop neither reads nor writes the warning log. -/
theorem setLoop_warn (key : String) (value : JsVal) (all : Bool) (names : List String) :
    ∀ (st : WSState) (w : List String) (res : Bool),
    webStorage.setLoop key value all { st with warnings := w } res names
      = ({ (webStorage.setLoop key value all st res names).1 with warnings := w },
         (webStorage.setLoop key value all st res names).2) := by
  induction names with
  | nil => intro st w res; rfl
  | cons hd tl ih =>
    intro st w res
    have hsup : engineIsSupported { st with warnings := w } hd = engineIsSupported st hd := rfl
    cases hs : engineIsSupported st hd with
    | false =>
      simp only [webStorage.setLoop, hsup, hs, Bool.false_eq_true, if_false]
      exact ih st w res
    | true =>
      have hset := engineSet_warn st w hd key value
      simp only [webStorage.setLoop, hsup, hs, if_true, hset]
      cases hna : (!all) with
      | true => simp
      | false =>
        simp only [Bool.false_eq_true, if_false]
        exact ih (engineSet st hd key value).1 w ((engineSet st hd key value).2 || res)

/-- Claim C10: the deprecated generic `add(k, v, allEngines)` returns the
same boolean and produces the same state as `set(k, v, allEngines)` except
for the appended console deprecation warning, and likewise each per-engine
`add` relative to that engine's `set`: every engine's stored contents, the
configuration, and the broadcast log agree. -/
theorem add_equals_set (st : WSState) (k : String) (v : JsVal) (allEngines : Option Bool) :
    webStorage.add st k v allEngines
      = ({ (webStorage.set st k v allEngines).1 with
            warnings := st.warnings ++ [addDeprecatedWarning] },
         (webStorage.set st k v allEngines).2)
    ∧ addToLocal st k v
        = ({ (setInLocal st k v).1 with warnings := st.warnings ++ [addDeprecatedWarning] },
           (setInLocal st k v).2)
    ∧ addToSession st k v
        = ({ (setInSession st k v).1 with warnings := st.warnings ++ [addDeprecatedWarning] },
           (setInSession st k v).2)
    ∧ addToMemory st k v
        = ({ (setInMemory st k v).1 with warnings := st.warnings ++ [addDeprecatedWarning] },
           (setInMemory st k v).2) :=
  ⟨setLoop_warn k v (allEngines.getD false) st.order st (st.warnings ++ [addDeprecatedWarning]) false,
    setInLocal_warn st (st.warnings ++ [addDeprecatedWarning]) k v,
    setInSession_warn st (st.warnings ++ [addDeprecatedWarning]) k v,
    setInMemory_warn st (st.warnings ++ [addDeprecatedWarning]) k v⟩
